import Mathlib

/-!
Shallow embedding of `src/app/generator.py` (rowing-workout generator).

Conventions of the embedding:
* Python numbers (ints and floats used for minutes/seconds) are modelled by `ℚ`
  (exact arithmetic); stroke rates and resistance levels by `ℤ`.
* Python `int(x)` (truncation toward zero) is `pyInt`; Python `x // y` on
  numbers is `⌊x / y⌋`, so `int(x // y)` is also `⌊x / y⌋`.
* A Python function that can raise is modelled as `Except GenError _`.
  Besides the two explicit `ValueError`s of the source, several builders
  read a local variable that is never assigned on some difficulty branches
  (e.g. `rest_duration` in `generate_interval_workout` when the difficulty
  is `'Medium 😎'` or unrecognized); Python raises `UnboundLocalError` at the
  first use, before any segment is produced, which we model as
  `GenError.unboundLocal` naming the offending variable.
* The randomness of `generate_surprise_workout` (`random.randint(3, 6)` and
  `random.choice` over the three sub-builders) is modelled by explicit
  parameters `num_segments : ℕ` and `pick : ℕ → SubBuilder`: a theorem
  quantifying over them covers every outcome of the random draws.
-/

/-- The tuple `(set_name, time, stroke_rate, resistance_level)` stored for
each workout set; the time component holds seconds (every builder stores
`minutes * 60` there). -/
structure WorkoutSet where
  name : String
  durationSec : ℚ
  spm : ℤ
  resistance : ℤ
deriving DecidableEq

/-- Errors the generator can raise: the two `ValueError`s of
`generate_rowing_workout`, and Python's `UnboundLocalError` for a local
variable read before assignment inside a builder. -/
inductive GenError
  | invalidDuration
  | unknownWorkoutType
  | unboundLocal (var : String)
deriving DecidableEq

/-- Python `int(q)`: truncation toward zero. -/
def pyInt (q : ℚ) : ℤ := if 0 ≤ q then ⌊q⌋ else ⌈q⌉

/-- `sum(set_[1] for set_ in workout)`: the sum of the duration components. -/
def sumDur (l : List WorkoutSet) : ℚ := (l.map (fun s => s.durationSec)).sum

/-- The six recognized workout-type labels (`WORKOUT_TYPES`). -/
def WORKOUT_TYPES : List String :=
  ["Cardio 🫀", "Interval ⏳", "Pyramid-SPM 📶", "Pyramid-Time ⏱️",
   "Strength 💪", "Surprise 🎱"]

/-- The three recognized difficulty labels (`DIFFICULTIES`). -/
def DIFFICULTIES : List String := ["Easy 🥱", "Medium 😎", "Hard 😖"]

/-- `get_intensity_params`: `(spm, resistance)` per difficulty, with the
default mid-tier pair for any unrecognized label. -/
def get_intensity_params (difficulty : String) : ℤ × ℤ :=
  if difficulty = "Easy 🥱" then (22, 4)
  else if difficulty = "Medium 😎" then (24, 5)
  else if difficulty = "Hard 😖" then (26, 6)
  else (24, 5)

/-- `generate_endurance_workout`: one "Steady State Row" set spanning
`main_time*60` seconds. -/
def generate_endurance_workout (main_time : ℚ) (difficulty : String) :
    List WorkoutSet :=
  let params := get_intensity_params difficulty
  [⟨"Steady State Row", main_time * 60, params.1, params.2⟩]

/-- The `for i in range(num_cycles)` loop of `generate_interval_workout`:
alternating 1-indexed Work/Rest interval pairs. -/
def interval_cycles (work_duration rest_duration : ℚ)
    (work_spm rest_spm base_resistance : ℤ) (n : ℕ) : List WorkoutSet :=
  (List.range n).flatMap (fun i =>
    [⟨"Work Interval " ++ Nat.repr (i + 1), work_duration * 60, work_spm,
      base_resistance⟩,
     ⟨"Rest Interval " ++ Nat.repr (i + 1), rest_duration * 60, rest_spm,
      base_resistance⟩])

/-- Lines 72–88 of `generate_interval_workout`, parametric in the work/rest
durations fixed earlier by the difficulty `match`:
`num_cycles = int(main_time // (work_duration + rest_duration))` cycles,
then `remaining_time = main_time - sum(set_[1] for set_ in workout)`
(minutes minus seconds!) and, if `remaining_time < rest + work`, a trailing
`("Final Easy Row", remaining_time*60, rest_spm, 5)` set. -/
def interval_core (main_time work_duration rest_duration : ℚ)
    (work_spm rest_spm base_resistance : ℤ) : List WorkoutSet :=
  let num_cycles := (⌊main_time / (work_duration + rest_duration)⌋).toNat
  let workout :=
    interval_cycles work_duration rest_duration work_spm rest_spm
      base_resistance num_cycles
  let remaining_time := main_time - sumDur workout
  if remaining_time < rest_duration + work_duration then
    workout ++ [⟨"Final Easy Row", remaining_time * 60, rest_spm, 5⟩]
  else
    workout

/-- `generate_interval_workout`: `work_duration = 1.0` with the difficulty
`match` assigning `rest_duration = 1.5` (Easy) or `0.5` (Hard); the
`'Medium 😎'` case assigns only `work_duration = 1.5` and the `match` has no
default, so for Medium and for unrecognized difficulties `rest_duration` is
read unassigned at the `num_cycles` line: `UnboundLocalError`. -/
def generate_interval_workout (main_time : ℚ) (difficulty : String) :
    Except GenError (List WorkoutSet) :=
  let params := get_intensity_params difficulty
  let work_spm := params.1 + 4
  let rest_spm : ℤ := 20
  let base_resistance := params.2
  if difficulty = "Easy 🥱" then
    .ok (interval_core main_time 1 (3/2) work_spm rest_spm base_resistance)
  else if difficulty = "Medium 😎" then
    .error (.unboundLocal "rest_duration")
  else if difficulty = "Hard 😖" then
    .ok (interval_core main_time 1 (1/2) work_spm rest_spm base_resistance)
  else
    .error (.unboundLocal "rest_duration")

/-- The pattern string of `generate_rate_pyramid_workout`. -/
def rate_pattern (main_time : ℚ) : String :=
  if main_time < 20 then "12321" else "1234321"

/-- Body of `generate_rate_pyramid_workout` once the difficulty `match` has
fixed `multiplier`: `n_segments = len(pattern)*2`,
`segment_time = main_time / n_segments`, and for each pattern character one
work period at `int(segment_time*60)` seconds and
`int(base_spm + digit*multiplier)` SPM followed by the fixed rest period. -/
def rate_pyramid_core (main_time : ℚ) (difficulty : String)
    (multiplier : ℚ) : List WorkoutSet :=
  let pattern := (rate_pattern main_time).toList
  let n_segments : ℕ := pattern.length * 2
  let segment_time := main_time / (n_segments : ℚ)
  let base := get_intensity_params difficulty
  let rest_period : WorkoutSet :=
    ⟨"Rest", (pyInt (segment_time * 60) : ℚ), base.1, base.2⟩
  pattern.enum.flatMap (fun ic =>
    let sec :=
      if ic.1 < pattern.length / 2 then "Climbing"
      else if pattern.length / 2 < ic.1 then "Descending"
      else "Peak"
    let interval_num : ℕ := ic.2.toNat - 48
    [⟨"Work Period " ++ Nat.repr (ic.1 + 1) ++ ": " ++ sec,
      (pyInt (segment_time * 60) : ℚ),
      pyInt ((base.1 : ℚ) + (interval_num : ℚ) * multiplier), base.2⟩,
     rest_period])

/-- `generate_rate_pyramid_workout`: the difficulty `match` sets
`multiplier` to 1.5/1.7/1.9 and has no default, so an unrecognized
difficulty leaves `multiplier` unassigned and its first use (inside the
first loop iteration) raises `UnboundLocalError`. -/
def generate_rate_pyramid_workout (main_time : ℚ) (difficulty : String) :
    Except GenError (List WorkoutSet) :=
  if difficulty = "Easy 🥱" then
    .ok (rate_pyramid_core main_time difficulty (3/2))
  else if difficulty = "Medium 😎" then
    .ok (rate_pyramid_core main_time difficulty (17/10))
  else if difficulty = "Hard 😖" then
    .ok (rate_pyramid_core main_time difficulty (19/10))
  else
    .error (.unboundLocal "multiplier")

/-- The pattern string of `generate_time_pyramid_workout` (threshold 24). -/
def time_pattern (main_time : ℚ) : String :=
  if main_time < 24 then "12321" else "1234321"

/-- Body of `generate_time_pyramid_workout` once `rest_duration` is fixed:
work-period durations proportional to the pattern digits over
`nonrest_time = main_time - rest_duration*len(pattern)`, truncated to whole
seconds by `int(time*60)`, each followed by the fixed rest period. -/
def time_pyramid_core (main_time : ℚ) (difficulty : String)
    (rest_duration : ℚ) : List WorkoutSet :=
  let pattern := (time_pattern main_time).toList
  let base := get_intensity_params difficulty
  let rest_period : WorkoutSet :=
    ⟨"Rest", rest_duration * 60, base.1 - 2, base.2⟩
  let nonrest_time := main_time - rest_duration * (pattern.length : ℚ)
  let digits := pattern.map (fun c => c.toNat - 48)
  let interval_times :=
    digits.map (fun d => ((d : ℚ) / ((digits.sum : ℕ) : ℚ)) * nonrest_time)
  interval_times.enum.flatMap (fun it =>
    let sec :=
      if it.1 < pattern.length / 2 then "Climbing"
      else if pattern.length / 2 < it.1 then "Descending"
      else "Peak"
    [⟨"Work Period " ++ Nat.repr (it.1 + 1) ++ ": " ++ sec,
      (pyInt (it.2 * 60) : ℚ), base.1 + 3, base.2⟩,
     rest_period])

/-- `generate_time_pyramid_workout`: `rest_duration` is 0.75/0.5/0.5 per
difficulty; the `match` has no default, so an unrecognized difficulty hits
`UnboundLocalError` at the `rest_period` line. -/
def generate_time_pyramid_workout (main_time : ℚ) (difficulty : String) :
    Except GenError (List WorkoutSet) :=
  if difficulty = "Easy 🥱" then
    .ok (time_pyramid_core main_time difficulty (3/4))
  else if difficulty = "Medium 😎" then
    .ok (time_pyramid_core main_time difficulty (1/2))
  else if difficulty = "Hard 😖" then
    .ok (time_pyramid_core main_time difficulty (1/2))
  else
    .error (.unboundLocal "rest_duration")

/-- Body of `generate_strength_workout` once the difficulty `match` has fixed
`high_resistance`, `rep_duration`, `rest_duration`:
`num_sets = int(main_time // (rep_duration + rest_duration))` 1-indexed
Power Pull / Active Recovery pairs. -/
def strength_core (main_time : ℚ) (high_resistance : ℤ)
    (rep_duration rest_duration : ℚ) : List WorkoutSet :=
  let power_spm : ℤ := 20
  let num_sets := (⌊main_time / (rep_duration + rest_duration)⌋).toNat
  (List.range num_sets).flatMap (fun i =>
    [⟨"Power Pull " ++ Nat.repr (i + 1), rep_duration * 60, power_spm,
      high_resistance⟩,
     ⟨"Active Recovery " ++ Nat.repr (i + 1), rest_duration * 60, 18, 5⟩])

/-- `generate_strength_workout`: per-difficulty `(high_resistance,
rep_duration, rest_duration)` of (6, 0.5, 1.0), (7, 0.5, 1.0), (8, 1.0,
1.0); no default case, so an unrecognized difficulty reads `rep_duration`
unassigned at the `num_sets` line: `UnboundLocalError`. -/
def generate_strength_workout (main_time : ℚ) (difficulty : String) :
    Except GenError (List WorkoutSet) :=
  if difficulty = "Easy 🥱" then
    .ok (strength_core main_time 6 (1/2) 1)
  else if difficulty = "Medium 😎" then
    .ok (strength_core main_time 7 (1/2) 1)
  else if difficulty = "Hard 😖" then
    .ok (strength_core main_time 8 1 1)
  else
    .error (.unboundLocal "rep_duration")

/-- The three sub-builders `random.choice` can select in
`generate_surprise_workout`. -/
inductive SubBuilder
  | endurance
  | interval
  | strength
deriving DecidableEq

/-- Dispatch of one `random.choice` outcome to its builder. -/
def run_sub (b : SubBuilder) (t : ℚ) (d : String) :
    Except GenError (List WorkoutSet) :=
  match b with
  | .endurance => .ok (generate_endurance_workout t d)
  | .interval => generate_interval_workout t d
  | .strength => generate_strength_workout t d

/-- The `for i in range(num_segments)` loop of `generate_surprise_workout`:
each chosen sub-builder's sets are renamed with the
`"Surprise Segment {i+1}: "` prefix and appended in order.  An exception in
any sub-builder propagates. -/
def surprise_segments (segment_time : ℚ) (difficulty : String)
    (pick : ℕ → SubBuilder) : ℕ → Except GenError (List WorkoutSet)
  | 0 => .ok []
  | n + 1 =>
    match surprise_segments segment_time difficulty pick n with
    | .error e => .error e
    | .ok prev =>
      match run_sub (pick n) segment_time difficulty with
      | .error e => .error e
      | .ok sets =>
        .ok (prev ++ sets.map (fun s =>
          { s with name :=
              "Surprise Segment " ++ Nat.repr (n + 1) ++ ": " ++ s.name }))

/-- `generate_surprise_workout`: `num_segments = random.randint(3, 6)` and
the per-segment `random.choice` are passed in as `num_segments`/`pick`;
`segment_time = main_time / num_segments`. -/
def generate_surprise_workout (main_time : ℚ) (difficulty : String)
    (num_segments : ℕ) (pick : ℕ → SubBuilder) :
    Except GenError (List WorkoutSet) :=
  surprise_segments (main_time / (num_segments : ℚ)) difficulty pick
    num_segments

/-- Main time after the warm-up/cool-down allocation of
`generate_rowing_workout` (including the negative-main-time fallback). -/
def main_time_of (T : ℚ) : ℚ :=
  if T - 5 - 5 < 0 then T / 2 else T - 5 - 5

/-- Warm-up time after the allocation of `generate_rowing_workout`. -/
def warmup_time_of (T : ℚ) : ℚ :=
  if T - 5 - 5 < 0 then T / 4 else 5

/-- Lines 267–275 of `generate_rowing_workout`: the warm-up set, the main
sets, and the cool-down set whose duration is
`int(total_time_minutes*60 - main_set_times - warmup_time*60)`. -/
def assemble (T warmup_time : ℚ) (main_sets : List WorkoutSet) :
    List WorkoutSet :=
  let warmup_set : WorkoutSet := ⟨"Warm-up", warmup_time * 60, 20, 3⟩
  let main_set_times := sumDur main_sets
  let extra_cooldown_time :=
    pyInt (T * 60 - main_set_times - warmup_time * 60)
  let cooldown_set : WorkoutSet := ⟨"Cool-down", (extra_cooldown_time : ℚ), 18, 2⟩
  warmup_set :: (main_sets ++ [cooldown_set])

/-- The `match workout_type` dispatch of `generate_rowing_workout`. -/
def main_builder (workout_type difficulty : String) (main_time : ℚ)
    (num_segments : ℕ) (pick : ℕ → SubBuilder) :
    Except GenError (List WorkoutSet) :=
  if workout_type = "Cardio 🫀" then
    .ok (generate_endurance_workout main_time difficulty)
  else if workout_type = "Interval ⏳" then
    generate_interval_workout main_time difficulty
  else if workout_type = "Pyramid-SPM 📶" then
    generate_rate_pyramid_workout main_time difficulty
  else if workout_type = "Pyramid-Time ⏱️" then
    generate_time_pyramid_workout main_time difficulty
  else if workout_type = "Strength 💪" then
    generate_strength_workout main_time difficulty
  else if workout_type = "Surprise 🎱" then
    generate_surprise_workout main_time difficulty num_segments pick
  else
    .error .unknownWorkoutType

/-- `generate_rowing_workout`: validation, time allocation, dispatch,
assembly. -/
def generate_rowing_workout (workout_type difficulty : String)
    (total_time_minutes : ℤ) (num_segments : ℕ) (pick : ℕ → SubBuilder) :
    Except GenError (List WorkoutSet) :=
  if total_time_minutes < 15 then .error .invalidDuration
  else
    match main_builder workout_type difficulty
        (main_time_of (total_time_minutes : ℚ)) num_segments pick with
    | .error e => .error e
    | .ok main_sets =>
      .ok (assemble (total_time_minutes : ℚ)
        (warmup_time_of (total_time_minutes : ℚ)) main_sets)

/-- The rate-pyramid output at allotted time 25, difficulty Hard. -/
def pyrCE : List WorkoutSet :=
  (generate_rate_pyramid_workout 25 "Hard 😖").toOption.getD []

/-- The exact plan of `("Strength 💪", "Hard 😖", 20)`. -/
def strengthHard20 : List WorkoutSet :=
  [⟨"Warm-up", 300, 20, 3⟩,
   ⟨"Power Pull 1", 60, 20, 8⟩, ⟨"Active Recovery 1", 60, 18, 5⟩,
   ⟨"Power Pull 2", 60, 20, 8⟩, ⟨"Active Recovery 2", 60, 18, 5⟩,
   ⟨"Power Pull 3", 60, 20, 8⟩, ⟨"Active Recovery 3", 60, 18, 5⟩,
   ⟨"Power Pull 4", 60, 20, 8⟩, ⟨"Active Recovery 4", 60, 18, 5⟩,
   ⟨"Power Pull 5", 60, 20, 8⟩, ⟨"Active Recovery 5", 60, 18, 5⟩,
   ⟨"Cool-down", 300, 18, 2⟩]

/-- The main sets of the interval builder at main time 5, difficulty Easy. -/
def intervalEasy15Main : List WorkoutSet :=
  [⟨"Work Interval 1", 60, 26, 4⟩, ⟨"Rest Interval 1", 90, 20, 4⟩,
   ⟨"Work Interval 2", 60, 26, 4⟩, ⟨"Rest Interval 2", 90, 20, 4⟩,
   ⟨"Final Easy Row", -17700, 20, 5⟩]

/-! ### Helper lemmas -/

/-- A rational that is (the cast of) an integer. -/
def IsInt (q : ℚ) : Prop := ∃ z : ℤ, q = (z : ℚ)

theorem isInt_intCast (z : ℤ) : IsInt (z : ℚ) := ⟨z, rfl⟩

theorem isInt_add {a b : ℚ} (ha : IsInt a) (hb : IsInt b) : IsInt (a + b) := by
  obtain ⟨x, hx⟩ := ha
  obtain ⟨y, hy⟩ := hb
  exact ⟨x + y, by rw [hx, hy]; push_cast; ring⟩

theorem isInt_sub {a b : ℚ} (ha : IsInt a) (hb : IsInt b) : IsInt (a - b) := by
  obtain ⟨x, hx⟩ := ha
  obtain ⟨y, hy⟩ := hb
  exact ⟨x - y, by rw [hx, hy]; push_cast; ring⟩

theorem isInt_mul {a b : ℚ} (ha : IsInt a) (hb : IsInt b) : IsInt (a * b) := by
  obtain ⟨x, hx⟩ := ha
  obtain ⟨y, hy⟩ := hb
  exact ⟨x * y, by rw [hx, hy]; push_cast; ring⟩

theorem pyInt_of_isInt {q : ℚ} (h : IsInt q) : (pyInt q : ℚ) = q := by
  obtain ⟨z, hz⟩ := h
  subst hz
  unfold pyInt
  split
  · rw [Int.floor_intCast]
  · rw [Int.ceil_intCast]

theorem sumDur_nil : sumDur [] = 0 := rfl

theorem sumDur_cons (s : WorkoutSet) (l : List WorkoutSet) :
    sumDur (s :: l) = s.durationSec + sumDur l := by
  simp [sumDur]

theorem sumDur_append (l₁ l₂ : List WorkoutSet) :
    sumDur (l₁ ++ l₂) = sumDur l₁ + sumDur l₂ := by
  simp [sumDur]

theorem isInt_sumDur {l : List WorkoutSet}
    (h : ∀ s ∈ l, IsInt s.durationSec) : IsInt (sumDur l) := by
  induction l with
  | nil => exact ⟨0, rfl⟩
  | cons a tl ih =>
    rw [sumDur_cons]
    exact isInt_add (h a (by simp)) (ih (fun s hs => h s (by simp [hs])))

/-- If the main-set seconds total is an integer, the backfilled cool-down
truncation is exact and the assembled plan sums to `T * 60`. -/
theorem assemble_sum (T warmup_time : ℚ) (main_sets : List WorkoutSet)
    (hW : IsInt (T * 60 - sumDur main_sets - warmup_time * 60)) :
    sumDur (assemble T warmup_time main_sets) = T * 60 := by
  unfold assemble
  rw [sumDur_cons, sumDur_append, sumDur_cons, sumDur_nil]
  simp only
  rw [pyInt_of_isInt hW]
  ring

/-- Splitting an `ok` result of the top-level generator into its parts. -/
theorem generate_ok_shape (workout_type difficulty : String)
    (T : ℤ) (ns : ℕ) (pick : ℕ → SubBuilder) (p : List WorkoutSet)
    (h : generate_rowing_workout workout_type difficulty T ns pick = .ok p) :
    ¬ T < 15 ∧ ∃ main_sets,
      main_builder workout_type difficulty (main_time_of (T : ℚ)) ns pick =
        .ok main_sets ∧
      p = assemble (T : ℚ) (warmup_time_of (T : ℚ)) main_sets := by
  unfold generate_rowing_workout at h
  split at h
  · exact absurd h (by simp)
  · next hT =>
    refine ⟨hT, ?_⟩
    split at h
    · exact absurd h (by simp)
    · next ms hms => exact ⟨ms, hms, (Except.ok.injEq _ _).mp h.symm⟩

/-- With `T ≥ 15` the negative-main-time fallback is not taken. -/
theorem main_time_of_ge15 {T : ℤ} (hT : 15 ≤ T) :
    main_time_of (T : ℚ) = (T : ℚ) - 5 - 5 := by
  unfold main_time_of
  rw [if_neg]
  linarith [(by exact_mod_cast hT : (15 : ℚ) ≤ (T : ℚ))]

/-- With `T ≥ 15` the warm-up allocation is the fixed 5 minutes. -/
theorem warmup_time_of_ge15 {T : ℤ} (hT : 15 ≤ T) :
    warmup_time_of (T : ℚ) = 5 := by
  unfold warmup_time_of
  rw [if_neg]
  linarith [(by exact_mod_cast hT : (15 : ℚ) ≤ (T : ℚ))]

/-- The seconds total of `n` full work/rest cycles. -/
theorem interval_cycles_sum (w r : ℚ) (ws rs res : ℤ) (n : ℕ) :
    sumDur (interval_cycles w r ws rs res n) =
      (n : ℚ) * (w * 60 + r * 60) := by
  induction n with
  | zero => simp [interval_cycles, sumDur]
  | succ k ih =>
    unfold interval_cycles at ih ⊢
    rw [List.range_succ, List.flatMap_append, sumDur_append, ih]
    simp [sumDur]
    ring

theorem interval_cycles_isInt (w r : ℚ) (ws rs res : ℤ) (n : ℕ)
    (hw : IsInt (w * 60)) (hr : IsInt (r * 60)) :
    ∀ s ∈ interval_cycles w r ws rs res n, IsInt s.durationSec := by
  intro s hs
  unfold interval_cycles at hs
  rw [List.mem_flatMap] at hs
  obtain ⟨i, _, hi⟩ := hs
  simp only [List.mem_cons, List.mem_singleton] at hi
  rcases hi with h | h | h
  · rw [h]; exact hw
  · rw [h]; exact hr
  · cases h

theorem interval_core_isInt (m w r : ℚ) (ws rs res : ℤ)
    (hm : IsInt (m * 60)) (hw : IsInt (w * 60)) (hr : IsInt (r * 60)) :
    ∀ s ∈ interval_core m w r ws rs res, IsInt s.durationSec := by
  intro s hs
  simp only [interval_core] at hs
  have hcyc :=
    interval_cycles_isInt w r ws rs res ((⌊m / (w + r)⌋).toNat) hw hr
  split at hs
  · rw [List.mem_append] at hs
    rcases hs with h | h
    · exact hcyc s h
    · rw [List.mem_singleton] at h
      subst h
      show IsInt
        ((m - sumDur (interval_cycles w r ws rs res ((⌊m / (w + r)⌋).toNat)))
          * 60)
      have hS : IsInt
          (sumDur (interval_cycles w r ws rs res ((⌊m / (w + r)⌋).toNat))) :=
        isInt_sumDur hcyc
      obtain ⟨x, hx⟩ := hm
      obtain ⟨y, hy⟩ := hS
      exact ⟨x - y * 60, by rw [sub_mul, hx, hy]; push_cast; ring⟩
  · exact hcyc s hs

theorem generate_interval_isInt (m : ℚ) (d : String) (l : List WorkoutSet)
    (hm : IsInt (m * 60))
    (h : generate_interval_workout m d = .ok l) :
    ∀ s ∈ l, IsInt s.durationSec := by
  unfold generate_interval_workout at h
  split_ifs at h <;> simp only [Except.ok.injEq] at h
  · subst h
    exact interval_core_isInt m 1 (3/2) _ _ _ hm ⟨60, by norm_num⟩
      ⟨90, by norm_num⟩
  · subst h
    exact interval_core_isInt m 1 (1/2) _ _ _ hm ⟨60, by norm_num⟩
      ⟨30, by norm_num⟩

theorem rate_pyramid_core_isInt (m : ℚ) (d : String) (mult : ℚ) :
    ∀ s ∈ rate_pyramid_core m d mult, IsInt s.durationSec := by
  intro s hs
  unfold rate_pyramid_core at hs
  rw [List.mem_flatMap] at hs
  obtain ⟨ic, _, hi⟩ := hs
  simp only [List.mem_cons, List.mem_singleton] at hi
  rcases hi with h | h | h
  · rw [h]; exact isInt_intCast _
  · rw [h]; exact isInt_intCast _
  · cases h

theorem generate_rate_pyramid_isInt (m : ℚ) (d : String)
    (l : List WorkoutSet)
    (h : generate_rate_pyramid_workout m d = .ok l) :
    ∀ s ∈ l, IsInt s.durationSec := by
  unfold generate_rate_pyramid_workout at h
  split_ifs at h <;> simp only [Except.ok.injEq] at h <;> subst h <;>
    exact rate_pyramid_core_isInt m d _

theorem time_pyramid_core_isInt (m : ℚ) (d : String) (rd : ℚ)
    (hrd : IsInt (rd * 60)) :
    ∀ s ∈ time_pyramid_core m d rd, IsInt s.durationSec := by
  intro s hs
  unfold time_pyramid_core at hs
  rw [List.mem_flatMap] at hs
  obtain ⟨it, _, hi⟩ := hs
  simp only [List.mem_cons, List.mem_singleton] at hi
  rcases hi with h | h | h
  · rw [h]; exact isInt_intCast _
  · rw [h]; exact hrd
  · cases h

theorem generate_time_pyramid_isInt (m : ℚ) (d : String)
    (l : List WorkoutSet)
    (h : generate_time_pyramid_workout m d = .ok l) :
    ∀ s ∈ l, IsInt s.durationSec := by
  unfold generate_time_pyramid_workout at h
  split_ifs at h <;> simp only [Except.ok.injEq] at h <;> subst h
  · exact time_pyramid_core_isInt m d (3/4) ⟨45, by norm_num⟩
  · exact time_pyramid_core_isInt m d (1/2) ⟨30, by norm_num⟩
  · exact time_pyramid_core_isInt m d (1/2) ⟨30, by norm_num⟩

theorem strength_core_isInt (m : ℚ) (hres : ℤ) (rep rest : ℚ)
    (hrep : IsInt (rep * 60)) (hrest : IsInt (rest * 60)) :
    ∀ s ∈ strength_core m hres rep rest, IsInt s.durationSec := by
  intro s hs
  unfold strength_core at hs
  rw [List.mem_flatMap] at hs
  obtain ⟨i, _, hi⟩ := hs
  simp only [List.mem_cons, List.mem_singleton] at hi
  rcases hi with h | h | h
  · rw [h]; exact hrep
  · rw [h]; exact hrest
  · cases h

theorem generate_strength_isInt (m : ℚ) (d : String) (l : List WorkoutSet)
    (h : generate_strength_workout m d = .ok l) :
    ∀ s ∈ l, IsInt s.durationSec := by
  unfold generate_strength_workout at h
  split_ifs at h <;> simp only [Except.ok.injEq] at h <;> subst h
  · exact strength_core_isInt m 6 (1/2) 1 ⟨30, by norm_num⟩ ⟨60, by norm_num⟩
  · exact strength_core_isInt m 7 (1/2) 1 ⟨30, by norm_num⟩ ⟨60, by norm_num⟩
  · exact strength_core_isInt m 8 1 1 ⟨60, by norm_num⟩ ⟨60, by norm_num⟩

theorem run_sub_isInt (b : SubBuilder) (t : ℚ) (d : String)
    (l : List WorkoutSet) (ht : IsInt (t * 60))
    (h : run_sub b t d = .ok l) : ∀ s ∈ l, IsInt s.durationSec := by
  cases b with
  | endurance =>
    simp only [run_sub, Except.ok.injEq] at h
    subst h
    intro s hs
    simp only [generate_endurance_workout, List.mem_singleton] at hs
    rw [hs]
    exact ht
  | interval => exact generate_interval_isInt t d l ht h
  | strength => exact generate_strength_isInt t d l h

theorem surprise_segments_isInt (t : ℚ) (d : String)
    (pick : ℕ → SubBuilder) (ht : IsInt (t * 60)) (n : ℕ)
    (l : List WorkoutSet)
    (h : surprise_segments t d pick n = .ok l) :
    ∀ s ∈ l, IsInt s.durationSec := by
  induction n generalizing l with
  | zero =>
    simp only [surprise_segments, Except.ok.injEq] at h
    subst h
    intro s hs
    cases hs
  | succ k ih =>
    unfold surprise_segments at h
    split at h
    · exact absurd h (by simp)
    · next prev hprev =>
      split at h
      · exact absurd h (by simp)
      · next sets hsets =>
        simp only [Except.ok.injEq] at h
        subst h
        intro s hs
        rw [List.mem_append] at hs
        rcases hs with hmem | hmem
        · exact ih prev hprev s hmem
        · rw [List.mem_map] at hmem
          obtain ⟨a, ha, rfl⟩ := hmem
          exact run_sub_isInt (pick k) t d sets ht hsets a ha

theorem main_builder_isInt (wt d : String) (m : ℚ) (ns : ℕ)
    (pick : ℕ → SubBuilder) (l : List WorkoutSet)
    (hm : IsInt (m * 60)) (hseg : IsInt (m / (ns : ℚ) * 60))
    (h : main_builder wt d m ns pick = .ok l) :
    ∀ s ∈ l, IsInt s.durationSec := by
  unfold main_builder at h
  split_ifs at h
  · simp only [Except.ok.injEq] at h
    subst h
    intro s hs
    simp only [generate_endurance_workout, List.mem_singleton] at hs
    rw [hs]
    exact hm
  · exact generate_interval_isInt m d l hm h
  · exact generate_rate_pyramid_isInt m d l h
  · exact generate_time_pyramid_isInt m d l h
  · exact generate_strength_isInt m d l h
  · exact surprise_segments_isInt (m / (ns : ℚ)) d pick hseg ns l h

/-- A label that is neither the warm-up nor the cool-down label. -/
def goodName (n : String) : Prop := n ≠ "Warm-up" ∧ n ≠ "Cool-down"

theorem goodName_of_long {n : String} (h : 9 < n.length) : goodName n := by
  constructor <;> intro e <;> rw [e] at h <;> exact absurd h (by decide)

theorem goodName_append {a : String} (b : String) (ha : 9 < a.length) :
    goodName (a ++ b) :=
  goodName_of_long (by rw [String.length_append]; omega)

theorem interval_cycles_names (w r : ℚ) (ws rs res : ℤ) (n : ℕ) :
    ∀ s ∈ interval_cycles w r ws rs res n, goodName s.name := by
  intro s hs
  unfold interval_cycles at hs
  rw [List.mem_flatMap] at hs
  obtain ⟨i, _, hi⟩ := hs
  simp only [List.mem_cons, List.mem_singleton] at hi
  rcases hi with h | h | h
  · rw [h]; exact goodName_append _ (by decide)
  · rw [h]; exact goodName_append _ (by decide)
  · cases h

theorem interval_core_names (m w r : ℚ) (ws rs res : ℤ) :
    ∀ s ∈ interval_core m w r ws rs res, goodName s.name := by
  intro s hs
  simp only [interval_core] at hs
  have hcyc := interval_cycles_names w r ws rs res ((⌊m / (w + r)⌋).toNat)
  split at hs
  · rw [List.mem_append] at hs
    rcases hs with h | h
    · exact hcyc s h
    · rw [List.mem_singleton] at h
      subst h
      show goodName "Final Easy Row"
      exact ⟨by decide, by decide⟩
  · exact hcyc s hs

theorem generate_interval_names (m : ℚ) (d : String) (l : List WorkoutSet)
    (h : generate_interval_workout m d = .ok l) :
    ∀ s ∈ l, goodName s.name := by
  unfold generate_interval_workout at h
  split_ifs at h <;> simp only [Except.ok.injEq] at h <;> subst h <;>
    exact interval_core_names m _ _ _ _ _

theorem rate_pyramid_core_names (m : ℚ) (d : String) (mult : ℚ) :
    ∀ s ∈ rate_pyramid_core m d mult, goodName s.name := by
  intro s hs
  unfold rate_pyramid_core at hs
  rw [List.mem_flatMap] at hs
  obtain ⟨ic, _, hi⟩ := hs
  simp only [List.mem_cons, List.mem_singleton] at hi
  rcases hi with h | h | h
  · rw [h]
    apply goodName_append
    rw [String.length_append, String.length_append]
    have h12 : ("Work Period " : String).length = 12 := by decide
    omega
  · rw [h]
    show goodName "Rest"
    exact ⟨by decide, by decide⟩
  · cases h

theorem generate_rate_pyramid_names (m : ℚ) (d : String)
    (l : List WorkoutSet)
    (h : generate_rate_pyramid_workout m d = .ok l) :
    ∀ s ∈ l, goodName s.name := by
  unfold generate_rate_pyramid_workout at h
  split_ifs at h <;> simp only [Except.ok.injEq] at h <;> subst h <;>
    exact rate_pyramid_core_names m d _

theorem time_pyramid_core_names (m : ℚ) (d : String) (rd : ℚ) :
    ∀ s ∈ time_pyramid_core m d rd, goodName s.name := by
  intro s hs
  unfold time_pyramid_core at hs
  rw [List.mem_flatMap] at hs
  obtain ⟨it, _, hi⟩ := hs
  simp only [List.mem_cons, List.mem_singleton] at hi
  rcases hi with h | h | h
  · rw [h]
    apply goodName_append
    rw [String.length_append, String.length_append]
    have h12 : ("Work Period " : String).length = 12 := by decide
    omega
  · rw [h]
    show goodName "Rest"
    exact ⟨by decide, by decide⟩
  · cases h

theorem generate_time_pyramid_names (m : ℚ) (d : String)
    (l : List WorkoutSet)
    (h : generate_time_pyramid_workout m d = .ok l) :
    ∀ s ∈ l, goodName s.name := by
  unfold generate_time_pyramid_workout at h
  split_ifs at h <;> simp only [Except.ok.injEq] at h <;> subst h <;>
    exact time_pyramid_core_names m d _

theorem strength_core_names (m : ℚ) (hres : ℤ) (rep rest : ℚ) :
    ∀ s ∈ strength_core m hres rep rest, goodName s.name := by
  intro s hs
  unfold strength_core at hs
  rw [List.mem_flatMap] at hs
  obtain ⟨i, _, hi⟩ := hs
  simp only [List.mem_cons, List.mem_singleton] at hi
  rcases hi with h | h | h
  · rw [h]; exact goodName_append _ (by decide)
  · rw [h]; exact goodName_append _ (by decide)
  · cases h

theorem generate_strength_names (m : ℚ) (d : String) (l : List WorkoutSet)
    (h : generate_strength_workout m d = .ok l) :
    ∀ s ∈ l, goodName s.name := by
  unfold generate_strength_workout at h
  split_ifs at h <;> simp only [Except.ok.injEq] at h <;> subst h <;>
    exact strength_core_names m _ _ _

theorem surprise_segments_names (t : ℚ) (d : String)
    (pick : ℕ → SubBuilder) (n : ℕ) (l : List WorkoutSet)
    (h : surprise_segments t d pick n = .ok l) :
    ∀ s ∈ l, goodName s.name := by
  induction n generalizing l with
  | zero =>
    simp only [surprise_segments, Except.ok.injEq] at h
    subst h
    intro s hs
    cases hs
  | succ k ih =>
    unfold surprise_segments at h
    split at h
    · exact absurd h (by simp)
    · next prev hprev =>
      split at h
      · exact absurd h (by simp)
      · next sets hsets =>
        simp only [Except.ok.injEq] at h
        subst h
        intro s hs
        rw [List.mem_append] at hs
        rcases hs with hmem | hmem
        · exact ih prev hprev s hmem
        · rw [List.mem_map] at hmem
          obtain ⟨a, _, rfl⟩ := hmem
          show goodName ("Surprise Segment " ++ Nat.repr (k + 1) ++ ": " ++
            a.name)
          apply goodName_append
          rw [String.length_append, String.length_append]
          have h17 : ("Surprise Segment " : String).length = 17 := by decide
          omega

theorem main_builder_names (wt d : String) (m : ℚ) (ns : ℕ)
    (pick : ℕ → SubBuilder) (l : List WorkoutSet)
    (h : main_builder wt d m ns pick = .ok l) :
    ∀ s ∈ l, goodName s.name := by
  unfold main_builder at h
  split_ifs at h
  · simp only [Except.ok.injEq] at h
    subst h
    intro s hs
    simp only [generate_endurance_workout, List.mem_singleton] at hs
    rw [hs]
    show goodName "Steady State Row"
    exact ⟨by decide, by decide⟩
  · exact generate_interval_names m d l h
  · exact generate_rate_pyramid_names m d l h
  · exact generate_time_pyramid_names m d l h
  · exact generate_strength_names m d l h
  · exact surprise_segments_names (m / (ns : ℚ)) d pick ns l h

theorem length_flatMap_two {α : Type} (f : α → List WorkoutSet)
    (hf : ∀ a, (f a).length = 2) :
    ∀ l : List α, (l.flatMap f).length = 2 * l.length := by
  intro l
  induction l with
  | nil => simp
  | cons a tl ih =>
    rw [List.flatMap_cons, List.length_append, hf, ih, List.length_cons]
    ring

/-- C1: for every valid input (recognized workout type, total time at least
15 minutes) and every outcome of the random draws (3 ≤ segments ≤ 6 and any
sub-builder choice), whenever a plan is returned its seconds total is
exactly `total_time_minutes * 60`: the truncated backfilled cool-down
absorbs the drift exactly because every main-set seconds total is a whole
number. -/
theorem C1_total_duration_exact (workout_type difficulty : String)
    (T : ℤ) (ns : ℕ) (pick : ℕ → SubBuilder) (p : List WorkoutSet)
    (_hwt : workout_type ∈ WORKOUT_TYPES) (hT : 15 ≤ T)
    (hns : 3 ≤ ns ∧ ns ≤ 6)
    (h : generate_rowing_workout workout_type difficulty T ns pick = .ok p) :
    sumDur p = (T : ℚ) * 60 := by
  obtain ⟨-, ms, hms, hp⟩ := generate_ok_shape _ _ _ _ _ _ h
  rw [main_time_of_ge15 hT] at hms
  rw [hp, warmup_time_of_ge15 hT]
  have hm : IsInt (((T : ℚ) - 5 - 5) * 60) :=
    ⟨(T - 10) * 60, by push_cast; ring⟩
  have hseg : IsInt (((T : ℚ) - 5 - 5) / (ns : ℚ) * 60) := by
    obtain ⟨h3, h6⟩ := hns
    interval_cases ns
    · exact ⟨(T - 10) * 20, by push_cast; ring⟩
    · exact ⟨(T - 10) * 15, by push_cast; ring⟩
    · exact ⟨(T - 10) * 12, by push_cast; ring⟩
    · exact ⟨(T - 10) * 10, by push_cast; ring⟩
  have hint := main_builder_isInt _ _ _ _ _ _ hm hseg hms
  obtain ⟨y, hy⟩ := isInt_sumDur hint
  apply assemble_sum
  exact ⟨T * 60 - y - 5 * 60, by rw [hy]; push_cast; ring⟩

/-- C1 witness: the `("Cardio 🫀", "Easy 🥱", 15)` plan sums to `15 * 60`. -/
theorem C1_total_duration_witness :
    sumDur [⟨"Warm-up", 300, 20, 3⟩, ⟨"Steady State Row", 300, 22, 4⟩,
      ⟨"Cool-down", 300, 18, 2⟩] = ((15 : ℤ) : ℚ) * 60 :=
  C1_total_duration_exact "Cardio 🫀" "Easy 🥱" 15 3
    (fun _ => SubBuilder.endurance) _
    (by with_unfolding_all decide) (by norm_num)
    ⟨by norm_num, by norm_num⟩ (by with_unfolding_all rfl)

/-- C8: every returned plan has at least 2 segments, starts with the single
"Warm-up" segment, ends with the single "Cool-down" segment, and no
in-between segment carries either label. -/
theorem C8_warmup_cooldown_shape (workout_type difficulty : String)
    (T : ℤ) (ns : ℕ) (pick : ℕ → SubBuilder) (p : List WorkoutSet)
    (h : generate_rowing_workout workout_type difficulty T ns pick = .ok p) :
    2 ≤ p.length ∧
    ∃ w ms c, p = w :: ms ++ [c] ∧ w.name = "Warm-up" ∧
      c.name = "Cool-down" ∧
      ∀ s ∈ ms, s.name ≠ "Warm-up" ∧ s.name ≠ "Cool-down" := by
  obtain ⟨-, ms, hms, hp⟩ := generate_ok_shape _ _ _ _ _ _ h
  subst hp
  constructor
  · show 2 ≤ (assemble _ _ ms).length
    unfold assemble
    rw [List.length_cons, List.length_append, List.length_singleton]
    omega
  · exact ⟨_, ms, _, rfl, rfl, rfl, main_builder_names _ _ _ _ _ _ hms⟩

/-- C8 witness: instantiated at `("Cardio 🫀", "Easy 🥱", 15)`. -/
theorem C8_warmup_cooldown_witness :
    2 ≤ ([⟨"Warm-up", 300, 20, 3⟩, ⟨"Steady State Row", 300, 22, 4⟩,
        ⟨"Cool-down", 300, 18, 2⟩] : List WorkoutSet).length ∧
    ∃ w ms c,
      ([⟨"Warm-up", 300, 20, 3⟩, ⟨"Steady State Row", 300, 22, 4⟩,
        ⟨"Cool-down", 300, 18, 2⟩] : List WorkoutSet) = w :: ms ++ [c] ∧
      w.name = "Warm-up" ∧ c.name = "Cool-down" ∧
      ∀ s ∈ ms, s.name ≠ "Warm-up" ∧ s.name ≠ "Cool-down" :=
  C8_warmup_cooldown_shape "Cardio 🫀" "Easy 🥱" 15 3
    (fun _ => SubBuilder.endurance) _ (by with_unfolding_all rfl)

/-- C10: every plan returned on a valid total ends with a cool-down segment
at stroke rate 18 and resistance 2 whose duration is the (whole-second)
integer truncation of `total*60 - warmup seconds - sum of main-set
durations`. -/
theorem C10_cooldown_truncation (workout_type difficulty : String)
    (T : ℤ) (ns : ℕ) (pick : ℕ → SubBuilder) (p : List WorkoutSet)
    (hT : 15 ≤ T)
    (h : generate_rowing_workout workout_type difficulty T ns pick = .ok p) :
    ∃ (ms : List WorkoutSet) (z : ℤ), p = ⟨"Warm-up", 300, 20, 3⟩ :: ms ++
        [⟨"Cool-down", (z : ℚ), 18, 2⟩] ∧
      z = pyInt ((T : ℚ) * 60 - 300 - sumDur ms) := by
  obtain ⟨-, ms, hms, hp⟩ := generate_ok_shape _ _ _ _ _ _ h
  subst hp
  rw [warmup_time_of_ge15 hT]
  refine ⟨ms, pyInt ((T : ℚ) * 60 - 300 - sumDur ms), ?_, rfl⟩
  show assemble _ 5 ms = _
  simp only [assemble]
  have h2 : (T : ℚ) * 60 - sumDur ms - 5 * 60 =
      (T : ℚ) * 60 - 300 - sumDur ms := by ring
  rw [h2]
  norm_num

/-- C10 witness: instantiated at `("Cardio 🫀", "Easy 🥱", 15)`. -/
theorem C10_cooldown_witness :
    ∃ (ms : List WorkoutSet) (z : ℤ),
      ([⟨"Warm-up", 300, 20, 3⟩, ⟨"Steady State Row", 300, 22, 4⟩,
        ⟨"Cool-down", 300, 18, 2⟩] : List WorkoutSet) =
        ⟨"Warm-up", 300, 20, 3⟩ :: ms ++ [⟨"Cool-down", (z : ℚ), 18, 2⟩] ∧
      z = pyInt (((15 : ℤ) : ℚ) * 60 - 300 - sumDur ms) :=
  C10_cooldown_truncation "Cardio 🫀" "Easy 🥱" 15 3
    (fun _ => SubBuilder.endurance) _ (by norm_num)
    (by with_unfolding_all rfl)

theorem interval_cycles_length (w r : ℚ) (ws rs res : ℤ) (n : ℕ) :
    (interval_cycles w r ws rs res n).length = 2 * n := by
  unfold interval_cycles
  rw [show (2 : ℕ) * n = 2 * (List.range n).length from by
    rw [List.length_range]]
  apply length_flatMap_two
  intro a
  rfl

/-- C4 (amended): with the work/rest parameters fixed, the interval core
emits exactly `⌊allotted/(work+rest)⌋` full cycles for nonnegative allotted
time, and when the trailing "Final Easy Row" is present its duration is
`60 * (allotted − seconds-sum of the cycles)` (the source subtracts a
seconds total from a minutes value before scaling by 60). -/
theorem C4_interval_cycles_amended (m w r : ℚ) (ws rs res : ℤ)
    (hm : 0 ≤ m) (hwr : 0 < w + r) :
    ∃ n : ℕ, (n : ℤ) = ⌊m / (w + r)⌋ ∧
      (interval_core m w r ws rs res =
        interval_cycles w r ws rs res n ∨
       interval_core m w r ws rs res =
        interval_cycles w r ws rs res n ++
          [⟨"Final Easy Row",
            (m - sumDur (interval_cycles w r ws rs res n)) * 60, rs, 5⟩]) := by
  refine ⟨(⌊m / (w + r)⌋).toNat,
    Int.toNat_of_nonneg (Int.le_floor.mpr (by
      rw [Int.cast_zero]
      exact div_nonneg hm hwr.le)), ?_⟩
  simp only [interval_core]
  split
  · exact Or.inr rfl
  · exact Or.inl rfl

/-- C4 witness: instantiated at allotted time 5, work 1, rest 1.5. -/
theorem C4_interval_cycles_witness :
    ∃ n : ℕ, (n : ℤ) = ⌊(5 : ℚ) / (1 + 3/2)⌋ ∧
      (interval_core 5 1 (3/2) 26 20 4 =
        interval_cycles 1 (3/2) 26 20 4 n ∨
       interval_core 5 1 (3/2) 26 20 4 =
        interval_cycles 1 (3/2) 26 20 4 n ++
          [⟨"Final Easy Row",
            (5 - sumDur (interval_cycles 1 (3/2) 26 20 4 n)) * 60, 20, 5⟩]) :=
  C4_interval_cycles_amended 5 1 (3/2) 26 20 4 (by norm_num) (by norm_num)

/-- The interval core always appends the trailing "Final Easy Row" set: the
leftover check compares `main_time - seconds` against a couple of minutes,
and that quantity is `main_time` itself when no cycle fits, and deeply
negative as soon as one cycle was emitted. -/
theorem interval_core_final (m w r : ℚ) (ws rs res : ℤ) (hwr : 0 < w + r) :
    interval_core m w r ws rs res =
      interval_cycles w r ws rs res ((⌊m / (w + r)⌋).toNat) ++
        [⟨"Final Easy Row",
          (m - sumDur (interval_cycles w r ws rs res ((⌊m / (w + r)⌋).toNat)))
            * 60, rs, 5⟩] ∧
    (1 ≤ ⌊m / (w + r)⌋ →
      (m - sumDur (interval_cycles w r ws rs res ((⌊m / (w + r)⌋).toNat)))
        * 60 < 0) := by
  have hS := interval_cycles_sum w r ws rs res ((⌊m / (w + r)⌋).toNat)
  have hflt : m < (((⌊m / (w + r)⌋ : ℤ) : ℚ) + 1) * (w + r) := by
    have h1 : m / (w + r) < ((⌊m / (w + r)⌋ : ℤ) : ℚ) + 1 :=
      Int.lt_floor_add_one (m / (w + r))
    calc m = m / (w + r) * (w + r) := by field_simp
    _ < (((⌊m / (w + r)⌋ : ℤ) : ℚ) + 1) * (w + r) :=
      mul_lt_mul_of_pos_right h1 hwr
  have key : m - sumDur (interval_cycles w r ws rs res
      ((⌊m / (w + r)⌋).toNat)) < r + w := by
    rcases le_or_lt ⌊m / (w + r)⌋ 0 with hk | hk
    · rw [Int.toNat_of_nonpos hk] at hS ⊢
      rw [hS]
      have : (((⌊m / (w + r)⌋ : ℤ) : ℚ) + 1) ≤ 1 := by
        have : ((⌊m / (w + r)⌋ : ℤ) : ℚ) ≤ 0 := by exact_mod_cast hk
        linarith
      have hm1 : m < 1 * (w + r) :=
        lt_of_lt_of_le hflt (mul_le_mul_of_nonneg_right this hwr.le)
      push_cast
      linarith
    · have hcast : (((⌊m / (w + r)⌋).toNat : ℚ) : ℚ) =
          ((⌊m / (w + r)⌋ : ℤ) : ℚ) := by
        norm_cast
        exact Int.toNat_of_nonneg hk.le
      rw [hS, hcast]
      have hk1 : (1 : ℚ) ≤ ((⌊m / (w + r)⌋ : ℤ) : ℚ) := by exact_mod_cast hk
      nlinarith [hflt, hwr, hk1]
  constructor
  · simp only [interval_core]
    rw [if_pos key]
  · intro h1
    have hcast : (((⌊m / (w + r)⌋).toNat : ℚ) : ℚ) =
        ((⌊m / (w + r)⌋ : ℤ) : ℚ) := by
      norm_cast
      exact Int.toNat_of_nonneg (by omega)
    rw [hS, hcast]
    have hk1 : (1 : ℚ) ≤ ((⌊m / (w + r)⌋ : ℤ) : ℚ) := by exact_mod_cast h1
    nlinarith [hflt, hwr, hk1]

/-- C9: for Easy and Hard difficulties (the ones for which the interval
builder returns at all), the output always ends with a "Final Easy Row"
set, its duration is `60 * (main_time - seconds-sum of the cycles)`, and it
is nonpositive whenever at least one full cycle was emitted. -/
theorem C9_final_easy_row_always (m : ℚ) (difficulty : String)
    (hd : difficulty = "Easy 🥱" ∨ difficulty = "Hard 😖")
    (l : List WorkoutSet)
    (h : generate_interval_workout m difficulty = .ok l) :
    ∃ init s, l = init ++ [s] ∧ s.name = "Final Easy Row" ∧
      s.durationSec = 60 * (m - sumDur init) ∧
      (init ≠ [] → s.durationSec ≤ 0) := by
  unfold generate_interval_workout at h
  have main : ∀ w r : ℚ, 0 < w + r →
      ∀ ws rs res : ℤ, l = interval_core m w r ws rs res →
      ∃ init s, l = init ++ [s] ∧ s.name = "Final Easy Row" ∧
        s.durationSec = 60 * (m - sumDur init) ∧
        (init ≠ [] → s.durationSec ≤ 0) := by
    intro w r hwr ws rs res hl
    obtain ⟨hshape, hneg⟩ := interval_core_final m w r ws rs res hwr
    refine ⟨interval_cycles w r ws rs res ((⌊m / (w + r)⌋).toNat), _,
      by rw [hl, hshape], rfl, by rw [mul_comm], ?_⟩
    intro hne
    have hk : 1 ≤ ⌊m / (w + r)⌋ := by
      by_contra hc
      push_neg at hc
      have h0 : (⌊m / (w + r)⌋).toNat = 0 := by omega
      rw [h0] at hne
      exact hne rfl
    exact le_of_lt (hneg hk)
  rcases hd with hd | hd <;> subst hd
  · rw [if_pos rfl] at h
    simp only [Except.ok.injEq] at h
    exact main 1 (3/2) (by norm_num) _ _ _ h.symm
  · rw [if_neg (by decide), if_neg (by decide), if_pos rfl] at h
    simp only [Except.ok.injEq] at h
    exact main 1 (1/2) (by norm_num) _ _ _ h.symm

theorem rate_pyramid_core_spec (m : ℚ) (d : String) (mult : ℚ) :
    (rate_pyramid_core m d mult).length =
      2 * (rate_pattern m).toList.length ∧
    ∀ s ∈ rate_pyramid_core m d mult, s.durationSec =
      (pyInt (m / (((rate_pattern m).toList.length * 2 : ℕ) : ℚ) * 60) : ℚ) := by
  constructor
  · simp only [rate_pyramid_core]
    rw [show (2 : ℕ) * (rate_pattern m).toList.length =
        2 * (rate_pattern m).toList.enum.length from by rw [List.enum_length]]
    apply length_flatMap_two
    intro a
    rfl
  · intro s hs
    unfold rate_pyramid_core at hs
    rw [List.mem_flatMap] at hs
    obtain ⟨ic, _, hi⟩ := hs
    simp only [List.mem_cons, List.mem_singleton] at hi
    rcases hi with h | h | h
    · rw [h]
    · rw [h]
    · cases h

/-- C7 counterexample: at allotted time 25 and difficulty Hard the builder
emits 14 segments that all last 107 whole seconds, while
`allotted_time / segment_count` is `25/14` minutes, i.e. `750/7` seconds —
the code truncates, so the claimed exact value does not hold. -/
theorem C7_uniform_duration_counterexample :
    pyrCE.length = 14 ∧ (∀ s ∈ pyrCE, s.durationSec = 107) ∧
    (107 : ℚ) ≠ 25 / 14 * 60 ∧ (107 : ℚ) ≠ 25 / 14 := by
  have hp : pyrCE = rate_pyramid_core 25 "Hard 😖" (19/10) := by
    with_unfolding_all rfl
  obtain ⟨hlen, hdur⟩ := rate_pyramid_core_spec 25 "Hard 😖" (19/10)
  have h7 : (rate_pattern 25).toList.length = 7 := by
    with_unfolding_all decide
  have h107 : ((pyInt ((25 : ℚ) /
      (((rate_pattern 25).toList.length * 2 : ℕ) : ℚ) * 60)) : ℚ) = 107 := by
    with_unfolding_all decide
  refine ⟨?_, ?_, by norm_num, by norm_num⟩
  · rw [hp, hlen, h7]
  · intro s hs
    rw [hp] at hs
    rw [hdur s hs, h107]

/-- C7 (amended): whenever the rate-pyramid builder returns (difficulty
Easy, Medium or Hard), it emits exactly `2 * len(pattern)` interleaved
work/rest segments, all sharing the same duration, equal to the integer
truncation of `allotted_time / segment_count * 60` seconds. -/
theorem C7_rate_pyramid_amended (m : ℚ) (d : String) (l : List WorkoutSet)
    (h : generate_rate_pyramid_workout m d = .ok l) :
    l.length = 2 * (rate_pattern m).toList.length ∧
    ∀ s ∈ l, s.durationSec =
      (pyInt (m / (((rate_pattern m).toList.length * 2 : ℕ) : ℚ) * 60) : ℚ) := by
  unfold generate_rate_pyramid_workout at h
  split_ifs at h <;> simp only [Except.ok.injEq] at h <;> subst h <;>
    exact rate_pyramid_core_spec m d _

/-- C7 witness: instantiated at allotted time 25, difficulty Hard. -/
theorem C7_rate_pyramid_witness :
    pyrCE.length = 2 * (rate_pattern 25).toList.length ∧
    ∀ s ∈ pyrCE, s.durationSec =
      (pyInt ((25 : ℚ) /
        (((rate_pattern 25).toList.length * 2 : ℕ) : ℚ) * 60) : ℚ) :=
  C7_rate_pyramid_amended 25 "Hard 😖" pyrCE (by with_unfolding_all rfl)

set_option maxRecDepth 2000 in
/-- C6: the exact `("Strength 💪", "Hard 😖", 20)` plan, for every outcome
of the random draws (unused by this builder): warm-up, five Power
Pull/Active Recovery pairs of 60 seconds each, and a 300-second cool-down
bringing the total to exactly 1200 seconds. -/
theorem C6_strength_hard_20_exact (ns : ℕ) (pick : ℕ → SubBuilder) :
    generate_rowing_workout "Strength 💪" "Hard 😖" 20 ns pick =
      .ok strengthHard20 ∧ sumDur strengthHard20 = 1200 :=
  ⟨by with_unfolding_all rfl, by with_unfolding_all decide⟩

/-- C2 evaluation: `("Interval ⏳", "Medium 😎", 20)` is a valid input by
the claim's standards, yet the code raises `UnboundLocalError` on
`rest_duration` (assigned in no branch of the Medium `match` case) — not
one of the two documented validation errors; the two documented errors do
fire on short durations and unknown types. -/
theorem C2_interval_medium_unbound_local :
    generate_rowing_workout "Interval ⏳" "Medium 😎" 20 3
      (fun _ => SubBuilder.endurance) =
      .error (.unboundLocal "rest_duration") ∧
    generate_rowing_workout "Cardio 🫀" "Medium 😎" 10 3
      (fun _ => SubBuilder.endurance) = .error .invalidDuration ∧
    generate_rowing_workout "Yoga 🧘" "Medium 😎" 20 3
      (fun _ => SubBuilder.endurance) = .error .unknownWorkoutType :=
  ⟨by with_unfolding_all rfl, by with_unfolding_all rfl,
   by with_unfolding_all rfl⟩

/-- C3 evaluation: an unrecognized difficulty only degrades gracefully for
the Cardio builder (which consumes the default Medium pair (24, 5) via
`get_intensity_params`); the interval, strength and both pyramid builders
raise `UnboundLocalError` because their difficulty `match` blocks have no
default case. -/
theorem C3_unknown_difficulty_crash :
    generate_rowing_workout "Cardio 🫀" "Extreme 🤯" 20 3
      (fun _ => SubBuilder.endurance) =
      .ok [⟨"Warm-up", 300, 20, 3⟩, ⟨"Steady State Row", 600, 24, 5⟩,
        ⟨"Cool-down", 300, 18, 2⟩] ∧
    generate_rowing_workout "Interval ⏳" "Extreme 🤯" 20 3
      (fun _ => SubBuilder.endurance) =
      .error (.unboundLocal "rest_duration") ∧
    generate_rowing_workout "Strength 💪" "Extreme 🤯" 20 3
      (fun _ => SubBuilder.endurance) =
      .error (.unboundLocal "rep_duration") ∧
    generate_rowing_workout "Pyramid-SPM 📶" "Extreme 🤯" 20 3
      (fun _ => SubBuilder.endurance) =
      .error (.unboundLocal "multiplier") ∧
    generate_rowing_workout "Pyramid-Time ⏱️" "Extreme 🤯" 20 3
      (fun _ => SubBuilder.endurance) =
      .error (.unboundLocal "rest_duration") :=
  ⟨by with_unfolding_all rfl, by with_unfolding_all rfl,
   by with_unfolding_all rfl, by with_unfolding_all rfl,
   by with_unfolding_all rfl⟩

set_option maxRecDepth 2000 in
theorem interval_core_5_easy :
    interval_core 5 1 (3/2) 26 20 4 = intervalEasy15Main := by
  have hn : (⌊(5 : ℚ) / (1 + 3/2)⌋).toNat = 2 := by with_unfolding_all decide
  have hcyc : interval_cycles 1 (3/2) 26 20 4 2 =
      [⟨"Work Interval 1", 60, 26, 4⟩, ⟨"Rest Interval 1", 90, 20, 4⟩,
       ⟨"Work Interval 2", 60, 26, 4⟩, ⟨"Rest Interval 2", 90, 20, 4⟩] := by
    with_unfolding_all decide
  simp only [interval_core]
  rw [hn, hcyc]
  norm_num [sumDur, intervalEasy15Main]

/-- C5 (code bug): the valid input `("Interval ⏳", "Easy 🥱", 15)` yields a
plan whose "Final Easy Row" set lasts −17700 seconds, violating the
non-negative-duration invariant (the leftover is computed as minutes minus
seconds and then scaled by 60). -/
theorem C5_negative_duration_bug :
    ∃ p, generate_rowing_workout "Interval ⏳" "Easy 🥱" 15 3
        (fun _ => SubBuilder.endurance) = .ok p ∧
      ∃ s ∈ p, s.name = "Final Easy Row" ∧ s.durationSec = -17700 ∧
        s.durationSec < 0 := by
  refine ⟨assemble ((15 : ℤ) : ℚ) (warmup_time_of ((15 : ℤ) : ℚ))
      (interval_core 5 1 (3/2) 26 20 4), by with_unfolding_all rfl, ?_⟩
  refine ⟨⟨"Final Easy Row", -17700, 20, 5⟩, ?_, rfl, rfl, by norm_num⟩
  show _ ∈ assemble _ _ _
  rw [interval_core_5_easy]
  simp [assemble, intervalEasy15Main]

/-- C9 witness: instantiated at main time 5, difficulty Easy. -/
theorem C9_final_easy_row_witness :
    ∃ init s, intervalEasy15Main = init ++ [s] ∧
      s.name = "Final Easy Row" ∧
      s.durationSec = 60 * ((5 : ℚ) - sumDur init) ∧
      (init ≠ [] → s.durationSec ≤ 0) :=
  C9_final_easy_row_always 5 "Easy 🥱" (Or.inl rfl) intervalEasy15Main (by
    have h0 : generate_interval_workout (5 : ℚ) "Easy 🥱" =
        .ok (interval_core 5 1 (3/2) 26 20 4) := by with_unfolding_all rfl
    rw [h0, interval_core_5_easy])

/-- C4 counterexample: at allotted time 5 with work 1 and rest 1.5 exactly
2 full cycles fit and the exact leftover is 0, yet the trailing "Final Easy
Row" segment is present with duration −17700 seconds — not the exact
leftover, whether read in seconds or in minutes. -/
theorem C4_remainder_counterexample :
    (interval_core 5 1 (3/2) 26 20 4).getLast? =
      some ⟨"Final Easy Row", -17700, 20, 5⟩ ∧
    ⌊(5 : ℚ) / (1 + 3/2)⌋ = 2 ∧
    (5 : ℚ) - 2 * (1 + 3/2) = 0 ∧
    ((-17700 : ℚ) ≠ ((5 : ℚ) - 2 * (1 + 3/2)) * 60 ∧
     (-17700 : ℚ) ≠ (5 : ℚ) - 2 * (1 + 3/2)) := by
  refine ⟨?_, by with_unfolding_all decide, by norm_num, by norm_num,
    by norm_num⟩
  rw [interval_core_5_easy]
  with_unfolding_all rfl
